import Mathlib

/-!
Verification of the credential/session authentication subsystem of the
AppAdminProductos application (Node.js/Express, SQLite via better-sqlite3).

The development shallowly embeds the relevant JavaScript source:
  * `src/models/Usuario.js`      — credential store and the per-attempt
                                   authentication state machine;
  * `src/controllers/authController.js` — the exposed register/login entry
                                   points;
  * the auth middleware (JWT issuance and verification).

Modelling conventions:
  * SQLite rows become Lean structures; the database becomes a `Store`
    record holding the `usuarios` and `intentos_login` tables as lists.
  * `CURRENT_TIMESTAMP` / `Date.now()` become an explicit `now : Nat`
    parameter; `DATETIME` columns become `Option Nat`.
  * bcrypt is modelled symbolically: a digest is a pair (cost, body) and
    `compare p h` holds exactly when `p` is the password that was hashed —
    the idealised contract of §4.2 of the specification.
  * JWT signatures are modelled symbolically (Dolev–Yao style): a
    signature is the triple (secret, payload, exp), so a signature
    verifies exactly when it was produced with the same secret over the
    same payload and expiry, and cannot be forged without the secret.
  * Thrown JS exceptions that the caller observes become result
    constructors; a thrown exception leaves the database unchanged, so
    fallible operations return their (unchanged) store alongside the error.
-/

/-! ### JS string primitives

`String.prototype.toLowerCase` and `String.prototype.trim`, modelled over
the character sequence (ASCII-faithful; other code points are untouched by
`Char.toLower` and are not whitespace). -/

/-- Model of JS `s.toLowerCase()`. -/
def jsToLower (s : String) : String := ⟨s.data.map Char.toLower⟩

/-- Model of JS `s.trim()`: strip leading and trailing whitespace. -/
def jsTrim (s : String) : String :=
  ⟨((s.data.dropWhile Char.isWhitespace).reverse.dropWhile Char.isWhitespace).reverse⟩

/-- `email.toLowerCase().trim()` — the identity normalization used by
`Usuario.findByEmail` and `Usuario.create`. -/
def normalizeEmail (e : String) : String := jsTrim (jsToLower e)

/-! ### bcrypt (symbolic model of the bcryptjs contract) -/

/-- A bcrypt digest: the cost factor embedded in the digest, and a body
that symbolically determines which plaintext the digest was derived from. -/
structure Digest where
  cost : Nat
  body : String
deriving Repr, DecidableEq

/-- Symbolic `bcrypt.hash(password, rounds)`. -/
def bcryptHash (password : String) (rounds : Nat) : Digest :=
  ⟨rounds, password⟩

/-- Symbolic `bcrypt.compare(password, hash)`: true exactly when `password`
is the plaintext the digest was derived from. -/
def bcryptCompare (password : String) (hash : Digest) : Bool :=
  hash.body == password

/-! ### Configuration (`config.security` of `config/config.js`)

The config module (`@module config/config`) is staged as the second
document of `src/routes/dashboard.js`. Its `security` object is built
from plain literals (no environment overrides), so it is translated as a
concrete record. -/

/-- The `config.security` record (`config/config.js`). -/
structure SecurityConfig where
  bcryptRounds : Nat
  passwordMinLength : Nat
  maxLoginAttempts : Nat
  lockoutTime : Nat
deriving Repr, DecidableEq

/-- The program's `config.security` value, from `config/config.js`:
`bcryptRounds: 12`, `passwordMinLength: 8`, `maxLoginAttempts: 5`,
`lockoutTime: 15 * 60 * 1000` (= 900000 ms). -/
def defaultSecurity : SecurityConfig :=
  { bcryptRounds := 12, passwordMinLength := 8, maxLoginAttempts := 5,
    lockoutTime := 15 * 60 * 1000 }

/-! ### Data model (tables `usuarios`, `intentos_login`) -/

/-- A row of the `usuarios` table. -/
structure Account where
  id : Nat
  nombre : String
  email : String
  password_hash : Digest
  rol : String
  activo : Bool
  intentos_fallidos : Nat
  bloqueado_hasta : Option Nat
  ultimo_login : Option Nat
deriving Repr, DecidableEq

/-- A row of the `intentos_login` table (the login-attempt ledger). -/
structure AttemptRecord where
  email : String
  ip_address : Option String
  exitoso : Bool
deriving Repr, DecidableEq

/-- The database state: both tables plus the AUTOINCREMENT counter. -/
structure Store where
  usuarios : List Account
  intentos_login : List AttemptRecord
  nextId : Nat
deriving Repr, DecidableEq

/-- The public projection `{ id, nombre, email, rol }` returned by
`Usuario.verifyCredentials` and `Usuario.create` (never the hash). -/
structure UserView where
  id : Nat
  nombre : String
  email : String
  rol : String
deriving Repr, DecidableEq

/-- The projection returned by `Usuario.findById`
(`SELECT id, nombre, email, rol, activo, ultimo_login …`, no hash). -/
structure UserRow where
  id : Nat
  nombre : String
  email : String
  rol : String
  activo : Bool
  ultimo_login : Option Nat
deriving Repr, DecidableEq

/-- Outcome of `Usuario.verifyCredentials` as its caller observes it:
`success u` is the returned public projection, `invalidCredentials` the
`null` return, `accountLocked` / `accountInactive` the two thrown errors. -/
inductive AuthResult where
  | success (u : UserView)
  | invalidCredentials
  | accountLocked
  | accountInactive
deriving Repr, DecidableEq

/-- `Usuario.create` throws `'El email ya está registrado'`. -/
inductive CreateError where
  | duplicateIdentity
deriving Repr, DecidableEq

namespace Usuario

/-- `UPDATE usuarios SET … WHERE id = ?`: apply `f` to every row whose
`id` matches. -/
def updateUser (st : Store) (userId : Nat) (f : Account → Account) : Store :=
  { st with usuarios := st.usuarios.map fun u => if u.id == userId then f u else u }

/-- `Usuario.findByEmail`: `SELECT * FROM usuarios WHERE email = ?` with
the lowercased-and-trimmed argument (`stmt.get` returns the first row). -/
def findByEmail (st : Store) (email : String) : Option Account :=
  st.usuarios.find? fun u => u.email == normalizeEmail email

/-- `Usuario.findById`: `SELECT id, nombre, email, rol, activo,
ultimo_login … WHERE id = ? AND activo = 1`. -/
def findById (st : Store) (id : Nat) : Option UserRow :=
  (st.usuarios.find? fun u => u.id == id && u.activo).map
    fun u => ⟨u.id, u.nombre, u.email, u.rol, u.activo, u.ultimo_login⟩

/-- `Usuario.create({nombre, email, password, rol = 'usuario'})`: rejects a
duplicate identity before hashing and inserting; the new row gets the
schema defaults `activo = 1`, `intentos_fallidos = 0`,
`bloqueado_hasta = NULL`. A throw leaves the store unchanged, so the
result always carries the resulting store. -/
def create (cfg : SecurityConfig) (st : Store) (nombre email password : String)
    (rol : Option String) : Except CreateError UserView × Store :=
  match findByEmail st email with
  | some _ => (.error .duplicateIdentity, st)
  | none =>
    let r := rol.getD "usuario"
    let passwordHash := bcryptHash password cfg.bcryptRounds
    let acc : Account :=
      { id := st.nextId, nombre := jsTrim nombre, email := normalizeEmail email,
        password_hash := passwordHash, rol := r, activo := true,
        intentos_fallidos := 0, bloqueado_hasta := none, ultimo_login := none }
    (.ok ⟨st.nextId, jsTrim nombre, normalizeEmail email, r⟩,
      { usuarios := st.usuarios ++ [acc], intentos_login := st.intentos_login,
        nextId := st.nextId + 1 })

/-- `Usuario.registerLoginAttempt(email, exitoso, ipAddress = null)`:
`INSERT INTO intentos_login (email, ip_address, exitoso)` with
`email.toLowerCase()`. -/
def registerLoginAttempt (st : Store) (email : String) (ip : Option String)
    (exitoso : Bool) : Store :=
  { st with intentos_login := st.intentos_login ++ [⟨jsToLower email, ip, exitoso⟩] }

/-- First statement of `Usuario.incrementFailedAttempts`:
`SELECT intentos_fallidos FROM usuarios WHERE id = ?`, with the JS
fallback `user?.intentos_fallidos || 0`. -/
def incReadAttempts (st : Store) (userId : Nat) : Nat :=
  match st.usuarios.find? fun u => u.id == userId with
  | some u => u.intentos_fallidos
  | none => 0

/-- Second statement of `Usuario.incrementFailedAttempts`:
`UPDATE usuarios SET intentos_fallidos = ?, bloqueado_hasta = ? WHERE id = ?`
with the values computed from the read `current`; note the update always
writes both columns, clearing `bloqueado_hasta` below the threshold. -/
def incWriteAttempts (cfg : SecurityConfig) (now : Nat) (st : Store)
    (userId : Nat) (current : Nat) : Store :=
  let newAttempts := current + 1
  let bloqueadoHasta : Option Nat :=
    if cfg.maxLoginAttempts ≤ newAttempts then some (now + cfg.lockoutTime) else none
  updateUser st userId fun u =>
    { u with intentos_fallidos := newAttempts, bloqueado_hasta := bloqueadoHasta }

/-- `Usuario.incrementFailedAttempts(userId)`: the read statement followed
by the write statement (two separate prepared statements, no transaction). -/
def incrementFailedAttempts (cfg : SecurityConfig) (now : Nat) (st : Store)
    (userId : Nat) : Store :=
  incWriteAttempts cfg now st userId (incReadAttempts st userId)

/-- `Usuario.resetFailedAttempts(userId)`:
`UPDATE … SET intentos_fallidos = 0, bloqueado_hasta = NULL`. -/
def resetFailedAttempts (st : Store) (userId : Nat) : Store :=
  updateUser st userId fun u =>
    { u with intentos_fallidos := 0, bloqueado_hasta := none }

/-- `Usuario.updateLastLogin(userId)`:
`UPDATE … SET ultimo_login = CURRENT_TIMESTAMP`. -/
def updateLastLogin (now : Nat) (st : Store) (userId : Nat) : Store :=
  updateUser st userId fun u => { u with ultimo_login := some now }

/-- The lockout test of `Usuario.verifyCredentials`:
`user.bloqueado_hasta && new Date(user.bloqueado_hasta) > new Date()`. -/
def isLocked (u : Account) (now : Nat) : Bool :=
  match u.bloqueado_hasta with
  | some t => now < t
  | none => false

/-- `Usuario.verifyCredentials(email, password)`: lookup, lockout check,
active check, bcrypt comparison, in that order, with the store updates and
ledger appends of the source; returns the observed outcome together with
the resulting store. -/
def verifyCredentials (cfg : SecurityConfig) (now : Nat) (st : Store)
    (email password : String) : AuthResult × Store :=
  match findByEmail st email with
  | none => (.invalidCredentials, registerLoginAttempt st email none false)
  | some user =>
    if isLocked user now then
      (.accountLocked, st)
    else if !user.activo then
      (.accountInactive, st)
    else if !bcryptCompare password user.password_hash then
      let st1 := incrementFailedAttempts cfg now st user.id
      (.invalidCredentials, registerLoginAttempt st1 email none false)
    else
      let st1 := resetFailedAttempts st user.id
      let st2 := updateLastLogin now st1 user.id
      (.success ⟨user.id, user.nombre, user.email, user.rol⟩,
        registerLoginAttempt st2 email none true)

/-- `Usuario.deactivate(id)`: `UPDATE usuarios SET activo = 0 WHERE id = ?`
(the audit column `fecha_actualizacion` is not modelled). -/
def deactivate (st : Store) (id : Nat) : Store :=
  updateUser st id fun u => { u with activo := false }

/-- `Usuario.registerLoginAttempt` with its `stmt.run` allowed to throw
(`ledgerOk = false` models a failing `INSERT` into `intentos_login`). -/
def registerLoginAttemptE (ledgerOk : Bool) (st : Store) (email : String)
    (ip : Option String) (exitoso : Bool) : Except Unit Store :=
  if ledgerOk then .ok (registerLoginAttempt st email ip exitoso) else .error ()

/-- `Usuario.verifyCredentials` with the ledger insert allowed to throw:
the source wraps no call to `registerLoginAttempt` in a try/catch, so a
throwing insert propagates out of `verifyCredentials` (`.error ()`)
instead of producing the authentication outcome. -/
def verifyCredentialsE (cfg : SecurityConfig) (now : Nat) (ledgerOk : Bool)
    (st : Store) (email password : String) : Except Unit (AuthResult × Store) :=
  match findByEmail st email with
  | none =>
    match registerLoginAttemptE ledgerOk st email none false with
    | .error e => .error e
    | .ok st' => .ok (.invalidCredentials, st')
  | some user =>
    if isLocked user now then
      .ok (.accountLocked, st)
    else if !user.activo then
      .ok (.accountInactive, st)
    else if !bcryptCompare password user.password_hash then
      match registerLoginAttemptE ledgerOk (incrementFailedAttempts cfg now st user.id)
          email none false with
      | .error e => .error e
      | .ok st' => .ok (.invalidCredentials, st')
    else
      match registerLoginAttemptE ledgerOk
          (updateLastLogin now (resetFailedAttempts st user.id) user.id) email none true with
      | .error e => .error e
      | .ok st' => .ok (.success ⟨user.id, user.nombre, user.email, user.rol⟩, st')

/-- The statement-level interleaving R₁ R₂ W₁ W₂ of two concurrent
`incrementFailedAttempts(userId)` calls: both `SELECT` statements run
before either `UPDATE` statement. -/
def incInterleaved (cfg : SecurityConfig) (now : Nat) (st : Store)
    (userId : Nat) : Store :=
  let r1 := incReadAttempts st userId
  let r2 := incReadAttempts st userId
  let st1 := incWriteAttempts cfg now st userId r1
  incWriteAttempts cfg now st1 userId r2

end Usuario

/-! ### JWT (middleware/auth.js), with a symbolic signature -/

/-- The claims payload `{ userId, email, rol }` signed by `generateToken`. -/
structure JwtPayload where
  userId : Nat
  email : String
  rol : String
deriving Repr, DecidableEq

/-- A symbolic JWT signature: it records exactly what a real HMAC binds —
the signing secret, the payload and the expiry. -/
structure JwtSig where
  secret : String
  payload : JwtPayload
  exp : Nat
deriving Repr, DecidableEq

/-- A decoded JWT: payload, `iat`/`exp` claims and the signature. -/
structure Token where
  payload : JwtPayload
  iat : Nat
  exp : Nat
  sig : JwtSig
deriving Repr, DecidableEq

/-- Errors distinguished by the middleware: missing header, the two
`jwt.verify` failures (`TokenExpiredError` vs any other), and the
store re-check failing (`'Usuario no encontrado o inactivo'`). -/
inductive TokenAuthError where
  | noToken
  | expired
  | invalid
  | userNotFound
deriving Repr, DecidableEq

namespace AuthMiddleware

/-- Produce the signature `jwt.sign` would attach. -/
def signToken (secret : String) (p : JwtPayload) (exp : Nat) : JwtSig :=
  ⟨secret, p, exp⟩

/-- `generateToken(user)`: sign `{ userId, email, rol }` with
`config.jwt.secret`, expiring `expiresIn` after issuance. -/
def generateToken (secret : String) (expiresIn now : Nat) (u : UserView) : Token :=
  let p : JwtPayload := ⟨u.id, u.email, u.rol⟩
  { payload := p, iat := now, exp := now + expiresIn,
    sig := signToken secret p (now + expiresIn) }

/-- Outcome of `jwt.verify(token, secret)`: signature check first
(failure → `JsonWebTokenError`), then the `exp` claim
(`TokenExpiredError` when the expiry has passed). -/
def jwtVerify (secret : String) (now : Nat) (t : Token) : Except TokenAuthError JwtPayload :=
  if t.sig = signToken secret t.payload t.exp then
    if t.exp ≤ now then .error .expired else .ok t.payload
  else .error .invalid

/-- The `verifyToken` middleware: bearer token present, `jwt.verify`, then
re-validate the subject against the store (`Usuario.findById`, which only
returns active rows) and attach the store's current row — not the token's
claims — as `req.user`. -/
def verifyToken (secret : String) (now : Nat) (st : Store)
    (tok : Option Token) : Except TokenAuthError UserRow :=
  match tok with
  | none => .error .noToken
  | some t =>
    match jwtVerify secret now t with
    | .error e => .error e
    | .ok decoded =>
      match Usuario.findById st decoded.userId with
      | none => .error .userNotFound
      | some user => .ok user

end AuthMiddleware

/-! ### Controllers (authController.js) -/

/-- The registration payload as sent by a caller; `rol` is whatever role
field the caller may have put in the request body. -/
structure RegisterBody where
  nombre : String
  email : String
  password : String
  rol : Option String
deriving Repr, DecidableEq

namespace AuthController

/-- `register`: destructures only `{ nombre, email, password }` from the
body and calls `Usuario.create` with `rol: 'usuario'` hard-coded. -/
def register (cfg : SecurityConfig) (st : Store) (body : RegisterBody) :
    Except CreateError UserView × Store :=
  Usuario.create cfg st body.nombre body.email body.password (some "usuario")

/-- `apiRegister`: same hard-coded `rol: 'usuario'`, then issues a token
for the created user. -/
def apiRegister (cfg : SecurityConfig) (secret : String) (expiresIn now : Nat)
    (st : Store) (body : RegisterBody) :
    Except CreateError (UserView × Token) × Store :=
  match Usuario.create cfg st body.nombre body.email body.password (some "usuario") with
  | (.error e, st') => (.error e, st')
  | (.ok v, st') => (.ok (v, AuthMiddleware.generateToken secret expiresIn now v), st')

/-- `apiLogin`: verify credentials, then issue a token for the returned
public projection. -/
def apiLogin (cfg : SecurityConfig) (secret : String) (expiresIn now : Nat)
    (st : Store) (email password : String) :
    Except AuthResult (UserView × Token) × Store :=
  match Usuario.verifyCredentials cfg now st email password with
  | (.success v, st') => (.ok (v, AuthMiddleware.generateToken secret expiresIn now v), st')
  | (r, st') => (.error r, st')

end AuthController

/-! ### Observation helpers -/

/-- The `intentos_fallidos` column of the row with the given id. -/
def counterOf (st : Store) (userId : Nat) : Option Nat :=
  (st.usuarios.find? fun u => u.id == userId).map fun u => u.intentos_fallidos

/-- The `bloqueado_hasta` column of the row with the given id. -/
def lockoutOf (st : Store) (userId : Nat) : Option (Option Nat) :=
  (st.usuarios.find? fun u => u.id == userId).map fun u => u.bloqueado_hasta

/-- The store after one `verifyCredentials` call. -/
def loginStep (cfg : SecurityConfig) (now : Nat) (email password : String)
    (st : Store) : Store :=
  (Usuario.verifyCredentials cfg now st email password).2

/-- The store after `n` consecutive `verifyCredentials` calls with the same
inputs at the same time. -/
def loginSteps (cfg : SecurityConfig) (now : Nat) (email password : String)
    (st : Store) : Nat → Store
  | 0 => st
  | n + 1 => loginStep cfg now email password (loginSteps cfg now email password st n)

/-! ### Concrete fixtures (used to instantiate the theorems) -/

/-- A freshly registered active account, `"a@x.com"` / `"Secret1!"`. -/
def anaActive : Account :=
  ⟨1, "Ana", "a@x.com", bcryptHash "Secret1!" 12, "usuario", true, 0, none, none⟩

/-- The same account soft-deactivated. -/
def anaInactive : Account := { anaActive with activo := false }

/-- The same account deactivated and with a lockout timestamp. -/
def anaLockedInactive : Account := { anaInactive with bloqueado_hasta := some 99 }

/-- A store holding exactly one account. -/
def oneUserStore (u : Account) : Store := ⟨[u], [], 2⟩

/-! ### Shared lemmas -/

/-- `find?` by id after an `UPDATE … WHERE id = ?`, for an update that
does not touch the id column. -/
theorem find?_map_ite (l : List Account) (i : Nat) (f : Account → Account)
    (hf : ∀ a, (f a).id = a.id) :
    (l.map fun a => if a.id == i then f a else a).find? (fun a => a.id == i)
      = (l.find? fun a => a.id == i).map f := by
  induction l with
  | nil => simp
  | cons a l ih =>
    simp only [List.map_cons, List.find?_cons]
    by_cases h : a.id = i
    · simp [h, hf]
    · have hb : (a.id == i) = false := beq_eq_false_iff_ne.mpr h
      rw [if_neg (by simp [hb] : ¬ ((a.id == i) = true))]
      rw [hb]
      exact ih

/-- `counterOf` / `lockoutOf` / the full row after `updateUser`. -/
theorem find?_updateUser (st : Store) (i : Nat) (f : Account → Account)
    (hf : ∀ a, (f a).id = a.id) :
    (Usuario.updateUser st i f).usuarios.find? (fun a => a.id == i)
      = (st.usuarios.find? fun a => a.id == i).map f :=
  find?_map_ite st.usuarios i f hf

/-- The row after the `UPDATE` statement of `incrementFailedAttempts`. -/
theorem find?_incWriteAttempts (cfg : SecurityConfig) (now : Nat) (Y : Store)
    (userId c : Nat) (w : Account)
    (hY : Y.usuarios.find? (fun a => a.id == userId) = some w) :
    (Usuario.incWriteAttempts cfg now Y userId c).usuarios.find?
        (fun a => a.id == userId)
      = some { w with
                intentos_fallidos := c + 1,
                bloqueado_hasta :=
                  (if cfg.maxLoginAttempts ≤ c + 1
                    then some (now + cfg.lockoutTime) else none) } := by
  simp only [Usuario.incWriteAttempts]
  rw [find?_updateUser]
  · rw [hY]
    rfl
  · intro a
    rfl

/-- The row after `resetFailedAttempts`. -/
theorem find?_resetFailedAttempts (Y : Store) (userId : Nat) (w : Account)
    (hY : Y.usuarios.find? (fun a => a.id == userId) = some w) :
    (Usuario.resetFailedAttempts Y userId).usuarios.find?
        (fun a => a.id == userId)
      = some { w with intentos_fallidos := 0, bloqueado_hasta := none } := by
  simp only [Usuario.resetFailedAttempts]
  rw [find?_updateUser]
  · rw [hY]
    rfl
  · intro a
    rfl

/-- The row after `updateLastLogin`. -/
theorem find?_updateLastLogin (now : Nat) (Y : Store) (userId : Nat) (w : Account)
    (hY : Y.usuarios.find? (fun a => a.id == userId) = some w) :
    (Usuario.updateLastLogin now Y userId).usuarios.find?
        (fun a => a.id == userId)
      = some { w with ultimo_login := some now } := by
  simp only [Usuario.updateLastLogin]
  rw [find?_updateUser]
  · rw [hY]
    rfl
  · intro a
    rfl

/-! ### Claim theorems -/

/-- C4: the per-attempt checks of `verifyCredentials` run strictly in the
order lookup → lockout → active flag → password: an unknown identity fails
with `InvalidCredentials` before any other check; a locked account fails
with `AccountLocked` regardless of its active flag or the password; an
inactive unlocked account fails with `AccountInactive` regardless of the
supplied password, with the store left untouched (no password
verification, counter update or ledger write). -/
theorem C4_check_order (cfg : SecurityConfig) (now : Nat) (st : Store)
    (email password : String) :
    (Usuario.findByEmail st email = none →
      (Usuario.verifyCredentials cfg now st email password).1 = .invalidCredentials) ∧
    (∀ u, Usuario.findByEmail st email = some u → Usuario.isLocked u now = true →
      Usuario.verifyCredentials cfg now st email password = (.accountLocked, st)) ∧
    (∀ u, Usuario.findByEmail st email = some u → Usuario.isLocked u now = false →
      u.activo = false →
      Usuario.verifyCredentials cfg now st email password = (.accountInactive, st)) := by
  refine ⟨?_, ?_, ?_⟩
  · intro h
    simp [Usuario.verifyCredentials, h]
  · intro u hu hl
    simp [Usuario.verifyCredentials, hu, hl]
  · intro u hu hl hact
    simp [Usuario.verifyCredentials, hu, hl, hact]

/-- C4 witness: a deactivated account with the correct password gets
`AccountInactive` and the store is unchanged; a locked inactive account
gets `AccountLocked`; an unknown identity gets `InvalidCredentials`. -/
theorem C4_check_order_witness :
    Usuario.verifyCredentials defaultSecurity 10 (oneUserStore anaInactive)
        "a@x.com" "Secret1!"
      = (.accountInactive, oneUserStore anaInactive) ∧
    Usuario.verifyCredentials defaultSecurity 10 (oneUserStore anaLockedInactive)
        "a@x.com" "Secret1!"
      = (.accountLocked, oneUserStore anaLockedInactive) ∧
    (Usuario.verifyCredentials defaultSecurity 10 ⟨[], [], 1⟩ "b@x.com" "pw").1
      = .invalidCredentials :=
  ⟨(C4_check_order defaultSecurity 10 (oneUserStore anaInactive) "a@x.com" "Secret1!").2.2
      anaInactive (by decide) (by decide) (by decide),
   (C4_check_order defaultSecurity 10 (oneUserStore anaLockedInactive) "a@x.com" "Secret1!").2.1
      anaLockedInactive (by decide) (by decide),
   (C4_check_order defaultSecurity 10 ⟨[], [], 1⟩ "b@x.com" "pw").1 (by decide)⟩

/-- C2 counterexample: authenticating with the unknown identity
`"A@X.com"` produces the `InvalidCredentials` (null) outcome and appends a
ledger record — but the record is keyed by `"a@x.com"`
(`email.toLowerCase()`), not by the raw attempted identity `"A@X.com"`,
so no record keyed by the raw identity exists. -/
theorem C2_raw_identity_counterexample :
    (Usuario.verifyCredentials defaultSecurity 0 ⟨[], [], 1⟩ "A@X.com" "pw").1
      = .invalidCredentials ∧
    (Usuario.verifyCredentials defaultSecurity 0 ⟨[], [], 1⟩ "A@X.com" "pw").2.intentos_login
      = [⟨"a@x.com", none, false⟩] ∧
    ¬ ∃ r ∈ (Usuario.verifyCredentials defaultSecurity 0 ⟨[], [], 1⟩ "A@X.com" "pw").2.intentos_login,
        r.email = "A@X.com" := by
  decide

/-- C2 amended: an authenticate call with an identity matching no stored
account returns the same `InvalidCredentials` outcome that a wrong
password produces (indistinguishable to the caller), and a failure record
keyed by the lower-cased (not raw, and not trimmed) attempted identity is
appended to the login-attempt ledger. -/
theorem C2_unknown_identity_ledger (cfg : SecurityConfig) (now : Nat) (st : Store)
    (email password : String)
    (h : Usuario.findByEmail st email = none) :
    Usuario.verifyCredentials cfg now st email password
      = (.invalidCredentials,
         { st with intentos_login := st.intentos_login ++ [⟨jsToLower email, none, false⟩] }) ∧
    ∀ (st2 : Store) (e2 p2 : String) (u2 : Account),
      Usuario.findByEmail st2 e2 = some u2 → Usuario.isLocked u2 now = false →
      u2.activo = true → bcryptCompare p2 u2.password_hash = false →
      (Usuario.verifyCredentials cfg now st2 e2 p2).1
        = (Usuario.verifyCredentials cfg now st email password).1 := by
  constructor
  · simp [Usuario.verifyCredentials, h, Usuario.registerLoginAttempt]
  · intro st2 e2 p2 u2 h2 hl ha hc
    simp [Usuario.verifyCredentials, h, h2, hl, ha, hc]

/-- C2 witness: unknown identity `"B@Y.com"` on a store holding one
account; the outcome coincides with a wrong-password attempt against that
account, and the ledger gains the lower-cased record. -/
theorem C2_unknown_identity_ledger_witness :
    Usuario.verifyCredentials defaultSecurity 7 (oneUserStore anaActive) "B@Y.com" "pw"
      = (.invalidCredentials,
         { oneUserStore anaActive with intentos_login := [⟨"b@y.com", none, false⟩] }) ∧
    (Usuario.verifyCredentials defaultSecurity 7 (oneUserStore anaActive) "a@x.com" "wrong").1
      = (Usuario.verifyCredentials defaultSecurity 7 (oneUserStore anaActive) "B@Y.com" "pw").1 :=
  ⟨by
    have h := (C2_unknown_identity_ledger defaultSecurity 7 (oneUserStore anaActive)
        "B@Y.com" "pw" (by decide)).1
    simpa [oneUserStore] using h,
   (C2_unknown_identity_ledger defaultSecurity 7 (oneUserStore anaActive)
        "B@Y.com" "pw" (by decide)).2
      (oneUserStore anaActive) "a@x.com" "wrong" anaActive
      (by decide) (by decide) (by decide) (by decide)⟩

/-- C7: a second `create` call whose identity normalizes to an already
registered identity fails with `DuplicateIdentity` and returns the store
of the first call unchanged; the first account's stored row — name,
identity, secret hash, role, counters — is exactly the one the first call
inserted. -/
theorem C7_duplicate_identity (cfg : SecurityConfig) (st : Store)
    (nombre email password : String) (rol : Option String)
    (nombre2 email2 password2 : String) (rol2 : Option String)
    (hfresh : Usuario.findByEmail st email = none)
    (hsame : normalizeEmail email2 = normalizeEmail email) :
    (Usuario.create cfg st nombre email password rol).1
      = .ok ⟨st.nextId, jsTrim nombre, normalizeEmail email, rol.getD "usuario"⟩ ∧
    Usuario.create cfg (Usuario.create cfg st nombre email password rol).2
        nombre2 email2 password2 rol2
      = (.error .duplicateIdentity, (Usuario.create cfg st nombre email password rol).2) ∧
    Usuario.findByEmail (Usuario.create cfg st nombre email password rol).2 email
      = some ⟨st.nextId, jsTrim nombre, normalizeEmail email,
              bcryptHash password cfg.bcryptRounds, rol.getD "usuario",
              true, 0, none, none⟩ := by
  have hfind : ∀ e', normalizeEmail e' = normalizeEmail email →
      Usuario.findByEmail (Usuario.create cfg st nombre email password rol).2 e'
        = some ⟨st.nextId, jsTrim nombre, normalizeEmail email,
                bcryptHash password cfg.bcryptRounds, rol.getD "usuario",
                true, 0, none, none⟩ := by
    intro e' he'
    simp only [Usuario.create, hfresh, Usuario.findByEmail, List.find?_append, he']
    rw [show Usuario.findByEmail st email = st.usuarios.find?
          (fun u => u.email == normalizeEmail email) from rfl] at hfresh
    simp [hfresh, List.find?_cons]
  have dup : ∀ (Y : Store) (a : Account), Usuario.findByEmail Y email2 = some a →
      Usuario.create cfg Y nombre2 email2 password2 rol2
        = (.error .duplicateIdentity, Y) := by
    intro Y a hY
    simp [Usuario.create, hY]
  refine ⟨?_, dup _ _ (hfind email2 hsame), hfind email rfl⟩
  simp [Usuario.create, hfresh]

/-- C7 witness: registering `"a@x.com"` then `" A@X.com "` (same identity
after normalization) — the second call fails with `DuplicateIdentity` and
the first account's row is intact. -/
theorem C7_duplicate_identity_witness :
    (Usuario.create defaultSecurity ⟨[], [], 1⟩ "Ana" "a@x.com" "Secret1!" none).1
      = .ok ⟨1, "Ana", "a@x.com", "usuario"⟩ ∧
    Usuario.create defaultSecurity
        (Usuario.create defaultSecurity ⟨[], [], 1⟩ "Ana" "a@x.com" "Secret1!" none).2
        "Bob" " A@X.com " "Other2!" none
      = (.error .duplicateIdentity,
         (Usuario.create defaultSecurity ⟨[], [], 1⟩ "Ana" "a@x.com" "Secret1!" none).2) ∧
    Usuario.findByEmail
        (Usuario.create defaultSecurity ⟨[], [], 1⟩ "Ana" "a@x.com" "Secret1!" none).2
        "a@x.com"
      = some ⟨1, "Ana", "a@x.com", bcryptHash "Secret1!" 12, "usuario", true, 0, none, none⟩ := by
  have h := C7_duplicate_identity defaultSecurity ⟨[], [], 1⟩ "Ana" "a@x.com" "Secret1!" none
      "Bob" " A@X.com " "Other2!" none (by decide) (by decide)
  refine ⟨?_, h.2.1, ?_⟩
  · have := h.1
    simpa using this
  · have := h.2.2
    simpa using this

/-- C5: the exposed registration interfaces force the created account's
role to the default `'usuario'`: the result is independent of any
caller-supplied role field (two bodies differing only in `rol` give
identical results for both `register` and `apiRegister`), a successful
registration's view carries role `'usuario'`, and every account row the
call adds to the store carries role `'usuario'`. -/
theorem C5_role_forced (cfg : SecurityConfig) (secret : String)
    (expiresIn now : Nat) (st : Store) (body : RegisterBody)
    (r1 r2 : Option String) :
    AuthController.register cfg st { body with rol := r1 }
      = AuthController.register cfg st { body with rol := r2 } ∧
    AuthController.apiRegister cfg secret expiresIn now st { body with rol := r1 }
      = AuthController.apiRegister cfg secret expiresIn now st { body with rol := r2 } ∧
    (∀ v, (AuthController.register cfg st body).1 = .ok v → v.rol = "usuario") ∧
    (∀ v t, (AuthController.apiRegister cfg secret expiresIn now st body).1 = .ok (v, t) →
      v.rol = "usuario") ∧
    (∀ acc, acc ∈ (AuthController.register cfg st body).2.usuarios →
      acc ∈ st.usuarios ∨ acc.rol = "usuario") := by
  refine ⟨rfl, rfl, ?_, ?_, ?_⟩
  · intro v hv
    simp only [AuthController.register, Usuario.create] at hv
    split at hv
    · simp at hv
    · simp at hv
      subst hv
      rfl
  · intro v t hv
    simp only [AuthController.apiRegister] at hv
    split at hv
    · simp at hv
    · rename_i w st' heq
      simp at hv
      obtain ⟨hwv, -⟩ := hv
      subst hwv
      simp only [Usuario.create] at heq
      split at heq
      · simp at heq
      · simp at heq
        obtain ⟨hw, -⟩ := heq
        subst hw
        rfl
  · intro acc hacc
    simp only [AuthController.register, Usuario.create] at hacc
    split at hacc
    · exact Or.inl hacc
    · simp at hacc
      rcases hacc with h | h
      · exact Or.inl h
      · exact Or.inr (by rw [h])

/-- C5 witness: two registration bodies differing only in the supplied
role (`some "admin"` vs `none`) behave identically, and the created view's
role is `'usuario'`. -/
theorem C5_role_forced_witness :
    AuthController.register defaultSecurity ⟨[], [], 1⟩
        ⟨"Eve", "e@x.com", "Secret1!", some "admin"⟩
      = AuthController.register defaultSecurity ⟨[], [], 1⟩
        ⟨"Eve", "e@x.com", "Secret1!", none⟩ ∧
    (∀ v, (AuthController.register defaultSecurity ⟨[], [], 1⟩
        ⟨"Eve", "e@x.com", "Secret1!", some "admin"⟩).1 = .ok v → v.rol = "usuario") :=
  ⟨(C5_role_forced defaultSecurity "s" 3600 0 ⟨[], [], 1⟩
      ⟨"Eve", "e@x.com", "Secret1!", none⟩ (some "admin") none).1,
   (C5_role_forced defaultSecurity "s" 3600 0 ⟨[], [], 1⟩
      ⟨"Eve", "e@x.com", "Secret1!", some "admin"⟩ none none).2.2.1⟩

/-- C3 counterexample: on a store where the credentials verify
successfully (the plain model returns `success`), the same call with the
ledger insert throwing propagates the exception (`.error ()`) instead of
returning success — a ledger write failure does change the authentication
result. -/
theorem C3_ledger_counterexample :
    (Usuario.verifyCredentials defaultSecurity 3 (oneUserStore anaActive)
        "a@x.com" "Secret1!").1
      = .success ⟨1, "Ana", "a@x.com", "usuario"⟩ ∧
    Usuario.verifyCredentialsE defaultSecurity 3 false (oneUserStore anaActive)
        "a@x.com" "Secret1!"
      = .error () := by
  exact ⟨by decide, by rfl⟩

/-- C3 amended: `registerLoginAttempt` is called with no try/catch
anywhere in `verifyCredentials`, so a throwing ledger insert propagates:
an attempt whose credential verification succeeded throws instead of
returning success whenever the ledger write fails; when the ledger write
succeeds the call behaves exactly like the plain model. -/
theorem C3_ledger_failure_propagates (cfg : SecurityConfig) (now : Nat)
    (st : Store) (email password : String) (u : Account)
    (hfind : Usuario.findByEmail st email = some u)
    (hlock : Usuario.isLocked u now = false)
    (hact : u.activo = true)
    (hpw : bcryptCompare password u.password_hash = true) :
    Usuario.verifyCredentialsE cfg now false st email password = .error () ∧
    ∀ (st2 : Store) (e2 p2 : String),
      Usuario.verifyCredentialsE cfg now true st2 e2 p2
        = .ok (Usuario.verifyCredentials cfg now st2 e2 p2) := by
  constructor
  · simp [Usuario.verifyCredentialsE, hfind, hlock, hact, hpw,
      Usuario.registerLoginAttemptE]
  · intro st2 e2 p2
    rcases h2 : Usuario.findByEmail st2 e2 with _ | u2
    · simp [Usuario.verifyCredentialsE, Usuario.verifyCredentials, h2,
        Usuario.registerLoginAttemptE]
    · rcases hl2 : Usuario.isLocked u2 now with _ | _
      · rcases ha2 : u2.activo with _ | _
        · simp [Usuario.verifyCredentialsE, Usuario.verifyCredentials, h2, hl2, ha2,
            Usuario.registerLoginAttemptE]
        · rcases hc2 : bcryptCompare p2 u2.password_hash with _ | _
          · simp [Usuario.verifyCredentialsE, Usuario.verifyCredentials, h2, hl2, ha2, hc2,
              Usuario.registerLoginAttemptE]
          · simp [Usuario.verifyCredentialsE, Usuario.verifyCredentials, h2, hl2, ha2, hc2,
              Usuario.registerLoginAttemptE]
      · simp [Usuario.verifyCredentialsE, Usuario.verifyCredentials, h2, hl2]

/-- C3 witness: concrete instance of the amended claim — correct
credentials plus a failing ledger insert yield `.error ()`, and with a
working ledger the exception-aware model agrees with the plain model. -/
theorem C3_ledger_failure_propagates_witness :
    Usuario.verifyCredentialsE defaultSecurity 3 false (oneUserStore anaActive)
        "a@x.com" "Secret1!"
      = .error () ∧
    Usuario.verifyCredentialsE defaultSecurity 3 true (oneUserStore anaActive)
        "a@x.com" "Secret1!"
      = .ok (Usuario.verifyCredentials defaultSecurity 3 (oneUserStore anaActive)
          "a@x.com" "Secret1!") :=
  ⟨(C3_ledger_failure_propagates defaultSecurity 3 (oneUserStore anaActive)
      "a@x.com" "Secret1!" anaActive (by decide) (by decide) (by decide) (by decide)).1,
   (C3_ledger_failure_propagates defaultSecurity 3 (oneUserStore anaActive)
      "a@x.com" "Secret1!" anaActive (by decide) (by decide) (by decide) (by decide)).2
     (oneUserStore anaActive) "a@x.com" "Secret1!"⟩

/-- C8 counterexample: `incrementFailedAttempts` is a `SELECT` followed by
a separate `UPDATE`; on an account with counter 4, the statement-level
interleaving R₁ R₂ W₁ W₂ of two calls has both reads return 4 and both
writes store 5 — the counter advances by one, not two, while two
serialized calls advance it to 6. -/
theorem C8_not_atomic_counterexample :
    Usuario.incReadAttempts (oneUserStore { anaActive with intentos_fallidos := 4 }) 1 = 4 ∧
    counterOf (Usuario.incInterleaved defaultSecurity 0
        (oneUserStore { anaActive with intentos_fallidos := 4 }) 1) 1
      = some 5 ∧
    counterOf (Usuario.incrementFailedAttempts defaultSecurity 0
        (Usuario.incrementFailedAttempts defaultSecurity 0
          (oneUserStore { anaActive with intentos_fallidos := 4 }) 1) 1) 1
      = some 6 := by
  decide

/-- C8 amended: the failed-counter increment is *not* a single atomic
read-modify-write: it is a `SELECT` of the counter followed by a separate
`UPDATE` with the precomputed value, with no transaction. Two serialized
calls advance the counter by two, but the statement-level interleaving in
which both reads precede both writes loses one update and advances the
counter by only one. -/
theorem C8_read_then_write (cfg : SecurityConfig) (now : Nat) (st : Store)
    (userId : Nat) (u : Account)
    (hfid : st.usuarios.find? (fun a => a.id == userId) = some u) :
    counterOf (Usuario.incrementFailedAttempts cfg now
        (Usuario.incrementFailedAttempts cfg now st userId) userId) userId
      = some (u.intentos_fallidos + 2) ∧
    counterOf (Usuario.incInterleaved cfg now st userId) userId
      = some (u.intentos_fallidos + 1) := by
  have hread : Usuario.incReadAttempts st userId = u.intentos_fallidos := by
    simp [Usuario.incReadAttempts, hfid]
  have h1 := find?_incWriteAttempts cfg now st userId u.intentos_fallidos u hfid
  have hread1 : Usuario.incReadAttempts
      (Usuario.incWriteAttempts cfg now st userId u.intentos_fallidos) userId
        = u.intentos_fallidos + 1 := by
    simp [Usuario.incReadAttempts, h1]
  have h2 := find?_incWriteAttempts cfg now _ userId (u.intentos_fallidos + 1) _ h1
  have h3 := find?_incWriteAttempts cfg now _ userId u.intentos_fallidos _ h1
  constructor
  · simp only [Usuario.incrementFailedAttempts, hread, hread1, counterOf]
    rw [h2]
    rfl
  · simp only [Usuario.incInterleaved, hread, counterOf]
    rw [h3]
    rfl

/-- C8 witness: concrete instance — from counter 4, serialized double
increment reaches 6, the interleaved schedule reaches only 5. -/
theorem C8_read_then_write_witness :
    counterOf (Usuario.incrementFailedAttempts defaultSecurity 0
        (Usuario.incrementFailedAttempts defaultSecurity 0
          (oneUserStore { anaActive with intentos_fallidos := 4 }) 1) 1) 1
      = some 6 ∧
    counterOf (Usuario.incInterleaved defaultSecurity 0
        (oneUserStore { anaActive with intentos_fallidos := 4 }) 1) 1
      = some 5 :=
  C8_read_then_write defaultSecurity 0
    (oneUserStore { anaActive with intentos_fallidos := 4 }) 1
    { anaActive with intentos_fallidos := 4 } (by decide)

/-- C9: lockout expiry does not reset the failed counter. For an account
whose counter has reached the threshold and whose lockout window has
elapsed, one further wrong-password attempt returns `InvalidCredentials`,
increments the counter past the threshold and immediately installs a
fresh lockout-until of now + lockoutTime (the account re-locks after a
single failure); a successful authentication instead returns the counter
to 0 and clears the lockout. -/
theorem C9_expiry_keeps_counter (cfg : SecurityConfig) (now : Nat) (st : Store)
    (e p wrong : String) (u : Account) (tb : Nat)
    (hfind : Usuario.findByEmail st e = some u)
    (hfid : st.usuarios.find? (fun a => a.id == u.id) = some u)
    (hact : u.activo = true)
    (hblk : u.bloqueado_hasta = some tb)
    (helapsed : tb ≤ now)
    (hcnt : cfg.maxLoginAttempts ≤ u.intentos_fallidos)
    (hhash : u.password_hash = bcryptHash p cfg.bcryptRounds)
    (hwrong : wrong ≠ p) :
    ((Usuario.verifyCredentials cfg now st e wrong).1 = .invalidCredentials ∧
     counterOf (Usuario.verifyCredentials cfg now st e wrong).2 u.id
        = some (u.intentos_fallidos + 1) ∧
     lockoutOf (Usuario.verifyCredentials cfg now st e wrong).2 u.id
        = some (some (now + cfg.lockoutTime))) ∧
    ((Usuario.verifyCredentials cfg now st e p).1
        = .success ⟨u.id, u.nombre, u.email, u.rol⟩ ∧
     counterOf (Usuario.verifyCredentials cfg now st e p).2 u.id = some 0 ∧
     lockoutOf (Usuario.verifyCredentials cfg now st e p).2 u.id = some none) := by
  have hl : Usuario.isLocked u now = false := by
    simp only [Usuario.isLocked, hblk]
    simp
    omega
  have hpw : bcryptCompare wrong u.password_hash = false := by
    simp only [bcryptCompare, hhash, bcryptHash]
    simp
    exact fun h => hwrong h.symm
  have hpw2 : bcryptCompare p u.password_hash = true := by
    simp [bcryptCompare, hhash, bcryptHash]
  have hread : Usuario.incReadAttempts st u.id = u.intentos_fallidos := by
    simp [Usuario.incReadAttempts, hfid]
  have hrun : Usuario.verifyCredentials cfg now st e wrong
      = (.invalidCredentials,
         Usuario.registerLoginAttempt
           (Usuario.incrementFailedAttempts cfg now st u.id) e none false) := by
    simp [Usuario.verifyCredentials, hfind, hl, hact, hpw]
  have hrun2 : Usuario.verifyCredentials cfg now st e p
      = (.success ⟨u.id, u.nombre, u.email, u.rol⟩,
         Usuario.registerLoginAttempt
           (Usuario.updateLastLogin now (Usuario.resetFailedAttempts st u.id) u.id)
           e none true) := by
    simp [Usuario.verifyCredentials, hfind, hl, hact, hpw2]
  have hw := find?_incWriteAttempts cfg now st u.id u.intentos_fallidos u hfid
  rw [if_pos (Nat.le_trans hcnt (Nat.le_succ _))] at hw
  have hr0 := find?_resetFailedAttempts st u.id u hfid
  have hr1 := find?_updateLastLogin now _ u.id _ hr0
  refine ⟨⟨by rw [hrun], ?_, ?_⟩, ⟨by rw [hrun2], ?_, ?_⟩⟩
  · rw [hrun]
    simp only [counterOf, Usuario.registerLoginAttempt,
      Usuario.incrementFailedAttempts, hread]
    rw [hw]
    rfl
  · rw [hrun]
    simp only [lockoutOf, Usuario.registerLoginAttempt,
      Usuario.incrementFailedAttempts, hread]
    rw [hw]
    rfl
  · rw [hrun2]
    simp only [counterOf, Usuario.registerLoginAttempt]
    rw [hr1]
    rfl
  · rw [hrun2]
    simp only [lockoutOf, Usuario.registerLoginAttempt]
    rw [hr1]
    rfl

/-- C9 witness: account with counter 5 and lockout expired at time 100,
authenticating at time 200 — a wrong password yields counter 6 and a
fresh lockout until 200 + 900000; the correct password yields counter 0
and no lockout. -/
theorem C9_expiry_keeps_counter_witness :
    ((Usuario.verifyCredentials defaultSecurity 200
        (oneUserStore { anaActive with intentos_fallidos := 5, bloqueado_hasta := some 100 })
        "a@x.com" "wrong").1 = .invalidCredentials ∧
     counterOf (Usuario.verifyCredentials defaultSecurity 200
        (oneUserStore { anaActive with intentos_fallidos := 5, bloqueado_hasta := some 100 })
        "a@x.com" "wrong").2 1 = some 6 ∧
     lockoutOf (Usuario.verifyCredentials defaultSecurity 200
        (oneUserStore { anaActive with intentos_fallidos := 5, bloqueado_hasta := some 100 })
        "a@x.com" "wrong").2 1 = some (some 900200)) ∧
    ((Usuario.verifyCredentials defaultSecurity 200
        (oneUserStore { anaActive with intentos_fallidos := 5, bloqueado_hasta := some 100 })
        "a@x.com" "Secret1!").1 = .success ⟨1, "Ana", "a@x.com", "usuario"⟩ ∧
     counterOf (Usuario.verifyCredentials defaultSecurity 200
        (oneUserStore { anaActive with intentos_fallidos := 5, bloqueado_hasta := some 100 })
        "a@x.com" "Secret1!").2 1 = some 0 ∧
     lockoutOf (Usuario.verifyCredentials defaultSecurity 200
        (oneUserStore { anaActive with intentos_fallidos := 5, bloqueado_hasta := some 100 })
        "a@x.com" "Secret1!").2 1 = some none) :=
  C9_expiry_keeps_counter defaultSecurity 200
    (oneUserStore { anaActive with intentos_fallidos := 5, bloqueado_hasta := some 100 })
    "a@x.com" "Secret1!" "wrong"
    { anaActive with intentos_fallidos := 5, bloqueado_hasta := some 100 } 100
    (by decide) (by decide) (by decide) (by decide) (by decide) (by decide)
    (by decide) (by decide)

/-- C1: with the default configuration (threshold 5), starting from a
fresh account, after 4 consecutive wrong-password attempts the correct
password still succeeds, but after exactly 5 consecutive failures the
6th call — even with the correct password — fails with `AccountLocked`
at any time strictly before lockout-until = t0 + lockoutTime (the 5th
failure sets counter 5 and that lockout); once the window has elapsed,
the correct password succeeds and resets the counter to 0, clearing the
lockout. -/
theorem C1_lockout_after_max_failures (u : Account) (e p wrong : String)
    (t0 t1 t2 : Nat)
    (hemail : u.email = normalizeEmail e)
    (hact : u.activo = true)
    (hcnt : u.intentos_fallidos = 0)
    (hblk : u.bloqueado_hasta = none)
    (hhash : u.password_hash = bcryptHash p defaultSecurity.bcryptRounds)
    (hwrong : wrong ≠ p)
    (ht1 : t1 < t0 + defaultSecurity.lockoutTime)
    (ht2 : t0 + defaultSecurity.lockoutTime ≤ t2) :
    (Usuario.verifyCredentials defaultSecurity t0
        (loginSteps defaultSecurity t0 e wrong ⟨[u], [], u.id + 1⟩ 4) e p).1
      = .success ⟨u.id, u.nombre, u.email, u.rol⟩ ∧
    (Usuario.verifyCredentials defaultSecurity t1
        (loginSteps defaultSecurity t0 e wrong ⟨[u], [], u.id + 1⟩ 5) e p).1
      = .accountLocked ∧
    counterOf (loginSteps defaultSecurity t0 e wrong ⟨[u], [], u.id + 1⟩ 5) u.id
      = some 5 ∧
    lockoutOf (loginSteps defaultSecurity t0 e wrong ⟨[u], [], u.id + 1⟩ 5) u.id
      = some (some (t0 + defaultSecurity.lockoutTime)) ∧
    (Usuario.verifyCredentials defaultSecurity t2
        (loginSteps defaultSecurity t0 e wrong ⟨[u], [], u.id + 1⟩ 5) e p).1
      = .success ⟨u.id, u.nombre, u.email, u.rol⟩ ∧
    counterOf (Usuario.verifyCredentials defaultSecurity t2
        (loginSteps defaultSecurity t0 e wrong ⟨[u], [], u.id + 1⟩ 5) e p).2 u.id
      = some 0 ∧
    lockoutOf (Usuario.verifyCredentials defaultSecurity t2
        (loginSteps defaultSecurity t0 e wrong ⟨[u], [], u.id + 1⟩ 5) e p).2 u.id
      = some none := by
  have hbw : (p == wrong) = false := by
    simp
    exact fun h => hwrong h.symm
  have step : ∀ (k : Nat) (led : List AttemptRecord),
      loginStep defaultSecurity t0 e wrong
          ⟨[{ u with intentos_fallidos := k, bloqueado_hasta := none }], led, u.id + 1⟩
        = ⟨[{ u with
               intentos_fallidos := k + 1,
               bloqueado_hasta := (if 5 ≤ k + 1 then some (t0 + 900000) else none) }],
           led ++ [⟨jsToLower e, none, false⟩], u.id + 1⟩ := by
    intro k led
    simp [loginStep, Usuario.verifyCredentials, Usuario.findByEmail, List.find?,
      hemail, Usuario.isLocked, hact, bcryptCompare, bcryptHash, hhash, hbw,
      Usuario.incrementFailedAttempts, Usuario.incReadAttempts,
      Usuario.incWriteAttempts, Usuario.updateUser, Usuario.registerLoginAttempt,
      defaultSecurity]
  have hu0 : ({ u with intentos_fallidos := 0, bloqueado_hasta := none } : Account) = u := by
    cases u
    simp_all
  have chain : ∀ n : Nat, n ≤ 5 →
      loginSteps defaultSecurity t0 e wrong ⟨[u], [], u.id + 1⟩ n
        = ⟨[{ u with
               intentos_fallidos := n,
               bloqueado_hasta := (if n = 5 then some (t0 + 900000) else none) }],
           List.replicate n ⟨jsToLower e, none, false⟩, u.id + 1⟩ := by
    intro n hn
    induction n with
    | zero =>
      simp [loginSteps, hu0]
    | succ m ih =>
      have hm : m ≤ 5 := Nat.le_of_succ_le hn
      have hm4 : ¬ m = 5 := by omega
      rw [show loginSteps defaultSecurity t0 e wrong ⟨[u], [], u.id + 1⟩ (m + 1)
            = loginStep defaultSecurity t0 e wrong
                (loginSteps defaultSecurity t0 e wrong ⟨[u], [], u.id + 1⟩ m) from rfl,
          ih hm, if_neg hm4, step m, List.replicate_succ']
      by_cases h5 : m + 1 = 5
      · rw [if_pos (by omega : 5 ≤ m + 1), if_pos h5]
      · rw [if_neg (by omega : ¬ 5 ≤ m + 1), if_neg h5]
  have h4 := chain 4 (by omega)
  have h5 := chain 5 (by omega)
  rw [if_neg (by omega : ¬ (4 : Nat) = 5)] at h4
  rw [if_pos rfl] at h5
  have hpp : (p == p) = true := by simp
  have ht1' : t1 < t0 + 900000 := ht1
  have ht2' : ¬ t2 < t0 + 900000 := Nat.not_lt.mpr ht2
  refine ⟨?_, ?_, ?_, ?_, ?_, ?_, ?_⟩
  · rw [h4]
    simp [Usuario.verifyCredentials, Usuario.findByEmail, List.find?, hemail,
      Usuario.isLocked, hact, bcryptCompare, bcryptHash, hhash, hpp,
      Usuario.resetFailedAttempts, Usuario.updateLastLogin, Usuario.updateUser,
      Usuario.registerLoginAttempt]
  · rw [h5]
    simp [Usuario.verifyCredentials, Usuario.findByEmail, List.find?, hemail,
      Usuario.isLocked, defaultSecurity, ht1']
  · rw [h5]
    simp [counterOf, List.find?]
  · rw [h5]
    simp [lockoutOf, List.find?, defaultSecurity]
  · rw [h5]
    simp [Usuario.verifyCredentials, Usuario.findByEmail, List.find?, hemail,
      Usuario.isLocked, hact, bcryptCompare, bcryptHash, hhash, hpp,
      Usuario.resetFailedAttempts, Usuario.updateLastLogin, Usuario.updateUser,
      Usuario.registerLoginAttempt, defaultSecurity, ht2']
  · rw [h5]
    simp [Usuario.verifyCredentials, Usuario.findByEmail, List.find?, hemail,
      Usuario.isLocked, hact, bcryptCompare, bcryptHash, hhash, hpp,
      Usuario.resetFailedAttempts, Usuario.updateLastLogin, Usuario.updateUser,
      Usuario.registerLoginAttempt, defaultSecurity, ht2',
      counterOf, List.find?]
  · rw [h5]
    simp [Usuario.verifyCredentials, Usuario.findByEmail, List.find?, hemail,
      Usuario.isLocked, hact, bcryptCompare, bcryptHash, hhash, hpp,
      Usuario.resetFailedAttempts, Usuario.updateLastLogin, Usuario.updateUser,
      Usuario.registerLoginAttempt, defaultSecurity, ht2',
      lockoutOf, List.find?]

/-- C1 witness: the spec's concrete scenario — register
`"a@x.com"`/`"Secret1!"`, fail 5 times with `"wrong"` at t=0, then the
6th attempt with the correct password at t=899999 returns
`AccountLocked`; at t=900000 it succeeds and the counter is back to 0. -/
theorem C1_lockout_after_max_failures_witness :
    (Usuario.verifyCredentials defaultSecurity 0
        (loginSteps defaultSecurity 0 "a@x.com" "wrong" (oneUserStore anaActive) 4)
        "a@x.com" "Secret1!").1
      = .success ⟨1, "Ana", "a@x.com", "usuario"⟩ ∧
    (Usuario.verifyCredentials defaultSecurity 899999
        (loginSteps defaultSecurity 0 "a@x.com" "wrong" (oneUserStore anaActive) 5)
        "a@x.com" "Secret1!").1
      = .accountLocked ∧
    counterOf (loginSteps defaultSecurity 0 "a@x.com" "wrong" (oneUserStore anaActive) 5) 1
      = some 5 ∧
    lockoutOf (loginSteps defaultSecurity 0 "a@x.com" "wrong" (oneUserStore anaActive) 5) 1
      = some (some 900000) ∧
    (Usuario.verifyCredentials defaultSecurity 900000
        (loginSteps defaultSecurity 0 "a@x.com" "wrong" (oneUserStore anaActive) 5)
        "a@x.com" "Secret1!").1
      = .success ⟨1, "Ana", "a@x.com", "usuario"⟩ ∧
    counterOf (Usuario.verifyCredentials defaultSecurity 900000
        (loginSteps defaultSecurity 0 "a@x.com" "wrong" (oneUserStore anaActive) 5)
        "a@x.com" "Secret1!").2 1
      = some 0 ∧
    lockoutOf (Usuario.verifyCredentials defaultSecurity 900000
        (loginSteps defaultSecurity 0 "a@x.com" "wrong" (oneUserStore anaActive) 5)
        "a@x.com" "Secret1!").2 1
      = some none :=
  C1_lockout_after_max_failures anaActive "a@x.com" "Secret1!" "wrong" 0 899999 900000
    (by decide) (by decide) (by decide) (by decide) (by decide) (by decide)
    (by decide) (by decide)

/-- C6: token round-trip. For an account present (and active) in the
store, verifying the token issued for its row immediately (at any time
before expiry) succeeds with the same subject claims — id, identity and
role — that were issued; at or after expiry verification fails with the
distinct `expired` error; and any mutated token — same signature but
different payload or expiry — fails with the distinct `invalid` error at
any time. -/
theorem C6_token_roundtrip (secret : String) (expiresIn now now1 now2 : Nat)
    (st : Store) (r : UserRow)
    (hfind : Usuario.findById st r.id = some r)
    (h1 : now1 < now + expiresIn)
    (h2 : now + expiresIn ≤ now2) :
    AuthMiddleware.verifyToken secret now1 st
        (some (AuthMiddleware.generateToken secret expiresIn now
          ⟨r.id, r.nombre, r.email, r.rol⟩))
      = .ok r ∧
    (AuthMiddleware.generateToken secret expiresIn now
        ⟨r.id, r.nombre, r.email, r.rol⟩).payload
      = ⟨r.id, r.email, r.rol⟩ ∧
    AuthMiddleware.verifyToken secret now2 st
        (some (AuthMiddleware.generateToken secret expiresIn now
          ⟨r.id, r.nombre, r.email, r.rol⟩))
      = .error .expired ∧
    (∀ (t' : Token) (n : Nat),
      t'.sig = (AuthMiddleware.generateToken secret expiresIn now
        ⟨r.id, r.nombre, r.email, r.rol⟩).sig →
      t'.payload ≠ ⟨r.id, r.email, r.rol⟩ ∨ t'.exp ≠ now + expiresIn →
      AuthMiddleware.verifyToken secret n st (some t') = .error .invalid) := by
  refine ⟨?_, rfl, ?_, ?_⟩
  · simp [AuthMiddleware.verifyToken, AuthMiddleware.jwtVerify,
      AuthMiddleware.generateToken, AuthMiddleware.signToken,
      Nat.not_le.mpr h1, hfind]
  · simp [AuthMiddleware.verifyToken, AuthMiddleware.jwtVerify,
      AuthMiddleware.generateToken, AuthMiddleware.signToken, h2]
  · intro t' n hsig hne
    have hbad : ¬ t'.sig = AuthMiddleware.signToken secret t'.payload t'.exp := by
      rw [hsig]
      simp [AuthMiddleware.generateToken, AuthMiddleware.signToken]
      intro hp
      rcases hne with h | h
      · exact absurd hp.symm h
      · intro hx
        exact absurd hx.symm h
    simp [AuthMiddleware.verifyToken, AuthMiddleware.jwtVerify, hbad]

/-- C6 witness: issue at t=0 with a one-hour expiry, verify at t=10
(success, same claims), at t=3600 (expired), and verify a tampered token
carrying role `"admin"` with the original signature (invalid). -/
theorem C6_token_roundtrip_witness :
    AuthMiddleware.verifyToken "s3cr3t" 10 (oneUserStore anaActive)
        (some (AuthMiddleware.generateToken "s3cr3t" 3600 0 ⟨1, "Ana", "a@x.com", "usuario"⟩))
      = .ok ⟨1, "Ana", "a@x.com", "usuario", true, none⟩ ∧
    AuthMiddleware.verifyToken "s3cr3t" 3600 (oneUserStore anaActive)
        (some (AuthMiddleware.generateToken "s3cr3t" 3600 0 ⟨1, "Ana", "a@x.com", "usuario"⟩))
      = .error .expired ∧
    AuthMiddleware.verifyToken "s3cr3t" 10 (oneUserStore anaActive)
        (some { payload := ⟨1, "a@x.com", "admin"⟩, iat := 0, exp := 3600,
                sig := (AuthMiddleware.generateToken "s3cr3t" 3600 0
                  ⟨1, "Ana", "a@x.com", "usuario"⟩).sig })
      = .error .invalid := by
  have h := C6_token_roundtrip "s3cr3t" 3600 0 10 3600 (oneUserStore anaActive)
    ⟨1, "Ana", "a@x.com", "usuario", true, none⟩ (by decide) (by decide) (by decide)
  exact ⟨h.1, h.2.2.1,
    h.2.2.2 { payload := ⟨1, "a@x.com", "admin"⟩, iat := 0, exp := 3600,
              sig := (AuthMiddleware.generateToken "s3cr3t" 3600 0
                ⟨1, "Ana", "a@x.com", "usuario"⟩).sig }
      10 rfl (Or.inl (by decide))⟩

/-- C10: `verifyToken` re-validates the subject against the credential
store on every call. For a well-signed, unexpired token: if
`findById` (which only returns active rows) finds nothing for the
token's subject — in particular on any store in which the subject has
been deactivated — the middleware rejects with `userNotFound`; on
success the principal attached is the store's current row `r` (current
role and profile), whatever claims snapshot the token carries. -/
theorem C10_store_revalidation (secret : String) (now : Nat) (st : Store)
    (t : Token)
    (hsig : t.sig = AuthMiddleware.signToken secret t.payload t.exp)
    (hfresh : now < t.exp) :
    (Usuario.findById st t.payload.userId = none →
      AuthMiddleware.verifyToken secret now st (some t) = .error .userNotFound) ∧
    (∀ r, Usuario.findById st t.payload.userId = some r →
      AuthMiddleware.verifyToken secret now st (some t) = .ok r) ∧
    AuthMiddleware.verifyToken secret now
        (Usuario.deactivate st t.payload.userId) (some t)
      = .error .userNotFound := by
  have hjwt : AuthMiddleware.jwtVerify secret now t = .ok t.payload := by
    simp [AuthMiddleware.jwtVerify, hsig, Nat.not_le.mpr hfresh]
  have hnone : Usuario.findById (Usuario.deactivate st t.payload.userId)
      t.payload.userId = none := by
    simp only [Usuario.findById, Usuario.deactivate, Usuario.updateUser,
      Option.map_eq_none']
    rw [List.find?_eq_none]
    intro x hx
    rcases List.mem_map.mp hx with ⟨a, _, ha⟩
    by_cases hid : (a.id == t.payload.userId) = true
    · rw [if_pos hid] at ha
      rw [← ha]
      simp [hid]
    · rw [if_neg hid] at ha
      rw [← ha]
      simp [hid]
  refine ⟨?_, ?_, ?_⟩
  · intro h
    simp [AuthMiddleware.verifyToken, hjwt, h]
  · intro r h
    simp [AuthMiddleware.verifyToken, hjwt, h]
  · simp [AuthMiddleware.verifyToken, hjwt, hnone]

/-- C10 witness: a token whose claims snapshot says role `"admin"` for
subject 1, verified against a store where account 1 currently has role
`"usuario"`: the attached principal is the store row (role `"usuario"`),
and after `deactivate(1)` the same token is rejected with
`userNotFound`. -/
theorem C10_store_revalidation_witness :
    AuthMiddleware.verifyToken "s3cr3t" 10 (oneUserStore anaActive)
        (some { payload := ⟨1, "a@x.com", "admin"⟩, iat := 0, exp := 3600,
                sig := AuthMiddleware.signToken "s3cr3t" ⟨1, "a@x.com", "admin"⟩ 3600 })
      = .ok ⟨1, "Ana", "a@x.com", "usuario", true, none⟩ ∧
    AuthMiddleware.verifyToken "s3cr3t" 10
        (Usuario.deactivate (oneUserStore anaActive) 1)
        (some { payload := ⟨1, "a@x.com", "admin"⟩, iat := 0, exp := 3600,
                sig := AuthMiddleware.signToken "s3cr3t" ⟨1, "a@x.com", "admin"⟩ 3600 })
      = .error .userNotFound :=
  ⟨(C10_store_revalidation "s3cr3t" 10 (oneUserStore anaActive)
      { payload := ⟨1, "a@x.com", "admin"⟩, iat := 0, exp := 3600,
        sig := AuthMiddleware.signToken "s3cr3t" ⟨1, "a@x.com", "admin"⟩ 3600 }
      rfl (by decide)).2.1
    ⟨1, "Ana", "a@x.com", "usuario", true, none⟩ (by decide),
   (C10_store_revalidation "s3cr3t" 10 (oneUserStore anaActive)
      { payload := ⟨1, "a@x.com", "admin"⟩, iat := 0, exp := 3600,
        sig := AuthMiddleware.signToken "s3cr3t" ⟨1, "a@x.com", "admin"⟩ 3600 }
      rfl (by decide)).2.2⟩
